import Mathlib

/-!
Shallow embedding of `keystoneauth1/identity/v3/oidc.py`: the OpenID Connect
authentication plugins `OidcPassword` and `OidcAuthorizationCode`, both built
on the shared base `_OidcBase`.

The HTTP session (`keystoneauth1/session.py`), the federation base
(`keystoneauth1/identity/v3/federation.py`) and the access-info factory
(`keystoneauth1/access.py`) are collaborators of this module that are not part
of the sources under verification; where their behaviour decides a claim they
are modelled from the specification, and each such definition says so in its
doc comment.

A session is modelled as a deterministic responder `Request → Response`; every
operation additionally returns the ordered list of requests it issued, so that
request-counting and ordering properties can be stated.  Methods of the plugin
classes additionally return the instance itself, threading the object state:
the Python method bodies contain no attribute assignment, and the state
threading makes that a provable frame property rather than an assumption.
-/

/-- An outbound HTTP request as issued through `session.post` in the source:
the target URL, the optional `requests_auth` client-credential pair, the
optional form `data`, the optional `headers` mapping, and the `authenticated`
flag. `method` records the HTTP verb of the session call (`session.post`). -/
structure Request where
  method : String
  url : String
  requests_auth : Option (String × String)
  data : Option (List (String × String))
  headers : Option (List (String × String))
  authenticated : Bool
deriving Repr, DecidableEq

/-- An HTTP response: its status code and its JSON body.  The bodies this
module inspects are JSON objects mapping string keys to string values,
modelled as association lists (first binding wins, as for a JSON object with
distinct keys). -/
structure Response where
  status : Nat
  body : List (String × String)
deriving Repr, DecidableEq

/-- The failures of an authentication attempt, in the taxonomy of the spec:
`tokenEndpointError` embeds the HTTP error the session raises on a non-2xx
status (carrying status and body); `malformedResponseError` embeds the
`KeyError` raised by `response.json()[self.access_token_type]` when the key
is absent from the phase-1 JSON body. -/
inductive OidcError where
  | tokenEndpointError (status : Nat) (body : List (String × String))
  | malformedResponseError (key : String)
deriving Repr, DecidableEq

/-- A session responder: what the network answers to each request. -/
def Session : Type := Request → Response

/-- Modelled from the spec: `session.post` of the session abstraction
(`keystoneauth1/session.py`, not among the sources under verification) issues
the request and returns the structured response when the status is 2xx; a
non-2xx HTTP status from either request is surfaced as `TokenEndpointError`
carrying the status code and raw body. -/
def session_post (session : Session) (req : Request) : Except OidcError Response :=
  let r := session req
  if 200 ≤ r.status ∧ r.status < 300 then Except.ok r
  else Except.error (OidcError.tokenEndpointError r.status r.body)

/-- `response.json()` of the source: the decoded JSON body. -/
def Response.json (r : Response) : List (String × String) :=
  r.body

/-- Python dictionary subscription `d[k]` as used in
`response.json()[self.access_token_type]`: the value bound to `k`, or the
`KeyError` on a missing key, which is the spec's `MalformedResponseError`. -/
def dictGetItem (d : List (String × String)) (k : String) : Except OidcError String :=
  match d.lookup k with
  | some v => Except.ok v
  | none => Except.error (OidcError.malformedResponseError k)

/-- The configuration held by `_OidcBase.__init__`: the federation fields
(`auth_url`, `identity_provider`, `protocol`) stored by the superclass and the
OIDC fields stored by `_OidcBase` itself. -/
structure OidcBase where
  auth_url : String
  identity_provider : String
  protocol : String
  client_id : String
  client_secret : String
  access_token_endpoint : String
  grant_type : String
  access_token_type : String
deriving Repr, DecidableEq

/-- Modelled from the spec: the federation base
(`keystoneauth1/identity/v3/federation.py`, not among the sources under
verification) exposes `federated_token_url`, a URL derived from `auth_url`,
`identity_provider` and `protocol`; the exact shape is the federation base's
concern and only its functional dependence on these three fields matters
here. -/
def OidcBase.federated_token_url (b : OidcBase) : String :=
  b.auth_url ++ "/OS-FEDERATION/identity_providers/" ++ b.identity_provider
    ++ "/protocols/" ++ b.protocol ++ "/auth"

/-- The final token-data object. Modelled from the spec: the result adapter
(`access.create` in `keystoneauth1/access.py`, not among the sources under
verification) converts the final HTTP response into a structured token-data
object; it is kept opaque here, wrapping the response it was built from. -/
structure AccessInfoV3 where
  resp : Response
deriving Repr, DecidableEq

/-- Modelled from the spec: the result adapter contract
`create(response) → FederatedTokenResult`. -/
def access.create (resp : Response) : AccessInfoV3 :=
  ⟨resp⟩

/-- `_OidcBase._get_access_token`: an unauthenticated POST to
`self.access_token_endpoint` with `requests_auth=client_auth` and
`data=payload`.  Returns the request it issued together with the session's
answer. -/
def OidcBase.get_access_token (self : OidcBase) (session : Session)
    (client_auth : String × String) (payload : List (String × String)) :
    Request × Except OidcError Response :=
  let req : Request :=
    { method := "POST", url := self.access_token_endpoint,
      requests_auth := some client_auth, data := some payload,
      headers := none, authenticated := false }
  (req, session_post session req)

/-- `_OidcBase._get_keystone_token`: an unauthenticated POST to
`self.federated_token_url` with header
`Authorization: Bearer <access_token>` (verbatim string concatenation in the
source).  Returns the request it issued together with the session's answer. -/
def OidcBase.get_keystone_token (self : OidcBase) (session : Session)
    (access_token : String) : Request × Except OidcError Response :=
  let headers := [("Authorization", "Bearer " ++ access_token)]
  let req : Request :=
    { method := "POST", url := self.federated_token_url,
      requests_auth := none, data := none,
      headers := some headers, authenticated := false }
  (req, session_post session req)

/-- `OidcPassword`: the resource-owner-password-credentials flow, extending
`_OidcBase` with `username`, `password` and `scope` as stored by
`OidcPassword.__init__`. -/
structure OidcPassword extends OidcBase where
  username : String
  password : String
  scope : String
deriving Repr, DecidableEq

/-- The phase-1 payload dictionary built inside
`OidcPassword.get_unscoped_auth_ref`:
`{'grant_type': self.grant_type, 'username': self.username,
'password': self.password, 'scope': self.scope}`. -/
def OidcPassword.phase1_payload (self : OidcPassword) : List (String × String) :=
  [("grant_type", self.grant_type), ("username", self.username),
   ("password", self.password), ("scope", self.scope)]

/-- `OidcPassword.get_unscoped_auth_ref`: build the client auth pair and the
password payload, call `_get_access_token`, extract the access token from the
phase-1 JSON body under the key `self.access_token_type`, call
`_get_keystone_token` with it, and adapt the final response via
`access.create`.  Besides the result, the returned value carries the ordered
list of requests issued and the instance state after the call (the method body
assigns no attribute, so each branch returns `self`). -/
def OidcPassword.get_unscoped_auth_ref (self : OidcPassword) (session : Session) :
    (Except OidcError AccessInfoV3 × List Request) × OidcPassword :=
  let client_auth := (self.client_id, self.client_secret)
  let payload := self.phase1_payload
  let (req1, r1) := self.toOidcBase.get_access_token session client_auth payload
  match r1 with
  | Except.error e => ((Except.error e, [req1]), self)
  | Except.ok response =>
    match dictGetItem response.json self.access_token_type with
    | Except.error e => ((Except.error e, [req1]), self)
    | Except.ok access_token =>
      let (req2, r2) := self.toOidcBase.get_keystone_token session access_token
      match r2 with
      | Except.error e => ((Except.error e, [req1, req2]), self)
      | Except.ok response2 => ((Except.ok (access.create response2), [req1, req2]), self)

/-- `OidcAuthorizationCode`: the authorization-code flow, extending
`_OidcBase` with `redirect_uri` and `code` as stored by
`OidcAuthorizationCode.__init__`. -/
structure OidcAuthorizationCode extends OidcBase where
  redirect_uri : String
  code : String
deriving Repr, DecidableEq

/-- The phase-1 payload dictionary built inside
`OidcAuthorizationCode.get_unscoped_auth_ref`:
`{'grant_type': self.grant_type, 'redirect_uri': self.redirect_uri,
'code': self.code}`. -/
def OidcAuthorizationCode.phase1_payload (self : OidcAuthorizationCode) :
    List (String × String) :=
  [("grant_type", self.grant_type), ("redirect_uri", self.redirect_uri),
   ("code", self.code)]

/-- `OidcAuthorizationCode.get_unscoped_auth_ref`: identical to the password
variant except for the payload it builds. -/
def OidcAuthorizationCode.get_unscoped_auth_ref (self : OidcAuthorizationCode)
    (session : Session) :
    (Except OidcError AccessInfoV3 × List Request) × OidcAuthorizationCode :=
  let client_auth := (self.client_id, self.client_secret)
  let payload := self.phase1_payload
  let (req1, r1) := self.toOidcBase.get_access_token session client_auth payload
  match r1 with
  | Except.error e => ((Except.error e, [req1]), self)
  | Except.ok response =>
    match dictGetItem response.json self.access_token_type with
    | Except.error e => ((Except.error e, [req1]), self)
    | Except.ok access_token =>
      let (req2, r2) := self.toOidcBase.get_keystone_token session access_token
      match r2 with
      | Except.error e => ((Except.error e, [req1, req2]), self)
      | Except.ok response2 => ((Except.ok (access.create response2), [req1, req2]), self)

/-- The phase-1 (token-endpoint) request a flow with base configuration `b`
and payload `payload` issues: what `_get_access_token` sends. -/
def OidcBase.token_request (b : OidcBase) (payload : List (String × String)) : Request :=
  { method := "POST", url := b.access_token_endpoint,
    requests_auth := some (b.client_id, b.client_secret), data := some payload,
    headers := none, authenticated := false }

/-- The phase-2 (federated-token) request a flow with base configuration `b`
issues for access token `v`: what `_get_keystone_token` sends. -/
def OidcBase.keystone_request (b : OidcBase) (v : String) : Request :=
  { method := "POST", url := b.federated_token_url,
    requests_auth := none, data := none,
    headers := some [("Authorization", "Bearer " ++ v)], authenticated := false }

/-- Spec-side definition for the refinement claim, following §4.1/§4.2 of the
spec: the generic two-step exchange, parameterized only by the shared
configuration and the phase-1 payload — acquire the access token with the
client-credential pair and the payload, extract the field named by
`access_token_type`, redeem it for a federated token, adapt the response. -/
def specExchange (b : OidcBase) (payload : List (String × String))
    (session : Session) : Except OidcError AccessInfoV3 × List Request :=
  let (req1, r1) := b.get_access_token session (b.client_id, b.client_secret) payload
  match r1 with
  | Except.error e => (Except.error e, [req1])
  | Except.ok response =>
    match dictGetItem response.json b.access_token_type with
    | Except.error e => (Except.error e, [req1])
    | Except.ok access_token =>
      let (req2, r2) := b.get_keystone_token session access_token
      match r2 with
      | Except.error e => (Except.error e, [req1, req2])
      | Except.ok response2 => (Except.ok (access.create response2), [req1, req2])

/-! ### Concrete fixtures used by witnesses and counterexamples -/

/-- A concrete base configuration. -/
def sampleBase : OidcBase :=
  { auth_url := "http://ks/v3", identity_provider := "idp1", protocol := "oidc",
    client_id := "cid", client_secret := "sec",
    access_token_endpoint := "https://op/token",
    grant_type := "password", access_token_type := "access_token" }

/-- A concrete password-flow instance with the constructor-default
`grant_type`, `access_token_type` and `scope`. -/
def samplePassword : OidcPassword :=
  { toOidcBase := sampleBase, username := "alice", password := "pw", scope := "profile" }

/-- A concrete authorization-code-flow instance with the constructor-default
`grant_type` and `access_token_type`. -/
def sampleAuthCode : OidcAuthorizationCode :=
  { toOidcBase := { sampleBase with grant_type := "authorization_code" },
    redirect_uri := "https://app/cb", code := "C1" }

/-- A password-flow instance constructed with `grant_type='refresh_token'`,
which `OidcPassword.__init__` accepts (`grant_type` is an ordinary keyword
parameter whose default is merely `'password'`). -/
def refreshPassword : OidcPassword :=
  { toOidcBase := { sampleBase with grant_type := "refresh_token" },
    username := "alice", password := "pw", scope := "profile" }

/-- A session that answers phase-1 requests (the ones carrying form data) with
status 200 and body `{"access_token": "AT123"}`, and phase-2 requests with
status 200 and body `{"token": "T1"}`. -/
def sessionOk : Session := fun req =>
  if req.data = none then { status := 200, body := [("token", "T1")] }
  else { status := 200, body := [("access_token", "AT123")] }

/-- A session that answers every request with status 401. -/
def session401 : Session := fun _ =>
  { status := 401, body := [("error", "unauthorized")] }

/-- A session whose phase-1 answer is 200 but whose body lacks the
`access_token` key. -/
def sessionNoKey : Session := fun _ =>
  { status := 200, body := [("id_token", "IDT")] }

/-- A session whose phase-1 answer maps `access_token` to the empty string. -/
def sessionEmptyTok : Session := fun req =>
  if req.data = none then { status := 200, body := [("token", "T1")] }
  else { status := 200, body := [("access_token", "")] }

/-! ### Shared helper lemmas -/

/-- `_get_access_token` issues exactly the phase-1 token request and returns
the session's answer to it. -/
theorem get_access_token_eq (b : OidcBase) (s : Session)
    (payload : List (String × String)) :
    b.get_access_token s (b.client_id, b.client_secret) payload =
      (b.token_request payload, session_post s (b.token_request payload)) :=
  rfl

/-- `_get_keystone_token` issues exactly the phase-2 federated-token request
and returns the session's answer to it. -/
theorem get_keystone_token_eq (b : OidcBase) (s : Session) (v : String) :
    b.get_keystone_token s v =
      (b.keystone_request v, session_post s (b.keystone_request v)) :=
  rfl

/-- The password variant factors through the generic exchange: it is
`specExchange` applied to its base configuration and its payload, and its
instance state is returned unchanged. -/
theorem password_factors (p : OidcPassword) (s : Session) :
    p.get_unscoped_auth_ref s = (specExchange p.toOidcBase p.phase1_payload s, p) := by
  simp only [OidcPassword.get_unscoped_auth_ref, specExchange,
    get_access_token_eq, get_keystone_token_eq]
  cases hp1 : session_post s (p.toOidcBase.token_request p.phase1_payload) with
  | error e => rfl
  | ok resp =>
    simp only []
    cases hd : dictGetItem resp.json p.toOidcBase.access_token_type with
    | error e => rfl
    | ok v =>
      simp only []
      cases hp2 : session_post s (p.toOidcBase.keystone_request v) <;> rfl

/-- The authorization-code variant factors through the generic exchange. -/
theorem authcode_factors (a : OidcAuthorizationCode) (t : Session) :
    a.get_unscoped_auth_ref t = (specExchange a.toOidcBase a.phase1_payload t, a) := by
  simp only [OidcAuthorizationCode.get_unscoped_auth_ref, specExchange,
    get_access_token_eq, get_keystone_token_eq]
  cases hp1 : session_post t (a.toOidcBase.token_request a.phase1_payload) with
  | error e => rfl
  | ok resp =>
    simp only []
    cases hd : dictGetItem resp.json a.toOidcBase.access_token_type with
    | error e => rfl
    | ok v =>
      simp only []
      cases hp2 : session_post t (a.toOidcBase.keystone_request v) <;> rfl

/-- When the session's answer to the phase-1 request is non-2xx, the generic
exchange stops with a `TokenEndpointError` carrying that status and body,
having issued only the phase-1 request. -/
theorem specExchange_phase1_error (b : OidcBase) (payload : List (String × String))
    (s : Session)
    (h : ¬(200 ≤ (s (b.token_request payload)).status ∧
           (s (b.token_request payload)).status < 300)) :
    specExchange b payload s =
      (Except.error (OidcError.tokenEndpointError (s (b.token_request payload)).status
        (s (b.token_request payload)).body), [b.token_request payload]) := by
  have hpost : session_post s (b.token_request payload) =
      Except.error (OidcError.tokenEndpointError (s (b.token_request payload)).status
        (s (b.token_request payload)).body) := by
    unfold session_post
    rw [if_neg h]
  simp only [specExchange, get_access_token_eq, hpost]

/-- When the phase-1 answer is 2xx but its JSON body lacks the key named by
`access_token_type`, the generic exchange stops with a
`MalformedResponseError` for that key, having issued only the phase-1
request. -/
theorem specExchange_missing_key (b : OidcBase) (payload : List (String × String))
    (s : Session)
    (h2 : 200 ≤ (s (b.token_request payload)).status ∧
          (s (b.token_request payload)).status < 300)
    (hk : (s (b.token_request payload)).body.lookup b.access_token_type = none) :
    specExchange b payload s =
      (Except.error (OidcError.malformedResponseError b.access_token_type),
        [b.token_request payload]) := by
  have hpost : session_post s (b.token_request payload) =
      Except.ok (s (b.token_request payload)) := by
    unfold session_post
    rw [if_pos h2]
  simp only [specExchange, get_access_token_eq, hpost, dictGetItem, Response.json, hk]

/-- When the phase-1 answer is 2xx and its JSON body binds the key named by
`access_token_type` to `v`, the generic exchange issues exactly the phase-1
request followed by the phase-2 request bearing
`Authorization: Bearer v`. -/
theorem specExchange_with_token (b : OidcBase) (payload : List (String × String))
    (s : Session) (v : String)
    (h2 : 200 ≤ (s (b.token_request payload)).status ∧
          (s (b.token_request payload)).status < 300)
    (hk : (s (b.token_request payload)).body.lookup b.access_token_type = some v) :
    (specExchange b payload s).2 = [b.token_request payload, b.keystone_request v] := by
  have hpost : session_post s (b.token_request payload) =
      Except.ok (s (b.token_request payload)) := by
    unfold session_post
    rw [if_pos h2]
  simp only [specExchange, get_access_token_eq, get_keystone_token_eq, hpost,
    dictGetItem, Response.json, hk]
  cases session_post s (b.keystone_request v) <;> rfl

/-- The phase-1 response: the session's answer to the token-endpoint request
that the password flow issues. -/
def OidcPassword.phase1_response (p : OidcPassword) (s : Session) : Response :=
  s (p.toOidcBase.token_request p.phase1_payload)

/-- The phase-1 response: the session's answer to the token-endpoint request
that the authorization-code flow issues. -/
def OidcAuthorizationCode.phase1_response (a : OidcAuthorizationCode) (t : Session) :
    Response :=
  t (a.toOidcBase.token_request a.phase1_payload)

/-- A 2xx (success) HTTP status. -/
abbrev is2xx (r : Response) : Prop :=
  200 ≤ r.status ∧ r.status < 300

/-- The default value of the `grant_type` parameter of
`OidcPassword.__init__`. -/
def OidcPassword.default_grant_type : String :=
  "password"

/-- The default value of the `grant_type` parameter of
`OidcAuthorizationCode.__init__`. -/
def OidcAuthorizationCode.default_grant_type : String :=
  "authorization_code"

/-- The first request any run of the generic exchange issues is the phase-1
token request. -/
theorem specExchange_first_request (b : OidcBase) (payload : List (String × String))
    (s : Session) :
    ((specExchange b payload s).2).head? = some (b.token_request payload) := by
  simp only [specExchange, get_access_token_eq, get_keystone_token_eq]
  cases session_post s (b.token_request payload) with
  | error e => rfl
  | ok resp =>
    simp only []
    cases dictGetItem resp.json b.access_token_type with
    | error e => rfl
    | ok v =>
      simp only []
      cases session_post s (b.keystone_request v) <;> rfl

/-! ### Claims -/

/-- C1: as stated — "for every valid configuration and every session,
authenticate issues exactly two outbound HTTP requests" — the claim is false:
a session answering the phase-1 request with status 401 makes the password
flow issue exactly one request, not two. -/
theorem C1_counterexample :
    ¬(((samplePassword.get_unscoped_auth_ref session401).1.2).length = 2) := by
  decide

/-- C1 (amended): for every configuration and every session whose phase-1
response is 2xx and whose JSON body contains the key named by
`access_token_type`, authenticate (either flow variant) issues exactly two
outbound requests, in order — first the token-endpoint POST, then the
federated-token request — and the second request's Authorization header value
equals `"Bearer "` followed by the extracted value. -/
theorem C1_two_requests (p : OidcPassword) (a : OidcAuthorizationCode)
    (s t : Session) (v w : String)
    (hp2 : is2xx (p.phase1_response s))
    (hpk : (p.phase1_response s).body.lookup p.access_token_type = some v)
    (ha2 : is2xx (a.phase1_response t))
    (hak : (a.phase1_response t).body.lookup a.access_token_type = some w) :
    (p.get_unscoped_auth_ref s).1.2 =
      [p.toOidcBase.token_request p.phase1_payload, p.toOidcBase.keystone_request v] ∧
    (p.toOidcBase.keystone_request v).headers = some [("Authorization", "Bearer " ++ v)] ∧
    (a.get_unscoped_auth_ref t).1.2 =
      [a.toOidcBase.token_request a.phase1_payload, a.toOidcBase.keystone_request w] ∧
    (a.toOidcBase.keystone_request w).headers = some [("Authorization", "Bearer " ++ w)] := by
  refine ⟨?_, rfl, ?_, rfl⟩
  · rw [password_factors]
    exact specExchange_with_token _ _ _ _ hp2 hpk
  · rw [authcode_factors]
    exact specExchange_with_token _ _ _ _ ha2 hak

/-- C1 witness: the amended statement instantiated at the sample
configurations and the all-200 session, whose phase-1 body binds
`access_token` to `"AT123"`. -/
theorem C1_witness :
    is2xx (samplePassword.phase1_response sessionOk) ∧
    (samplePassword.phase1_response sessionOk).body.lookup
      samplePassword.access_token_type = some "AT123" ∧
    is2xx (sampleAuthCode.phase1_response sessionOk) ∧
    (sampleAuthCode.phase1_response sessionOk).body.lookup
      sampleAuthCode.access_token_type = some "AT123" ∧
    ((samplePassword.get_unscoped_auth_ref sessionOk).1.2 =
      [samplePassword.toOidcBase.token_request samplePassword.phase1_payload,
       samplePassword.toOidcBase.keystone_request "AT123"] ∧
     (samplePassword.toOidcBase.keystone_request "AT123").headers =
       some [("Authorization", "Bearer " ++ "AT123")] ∧
     (sampleAuthCode.get_unscoped_auth_ref sessionOk).1.2 =
      [sampleAuthCode.toOidcBase.token_request sampleAuthCode.phase1_payload,
       sampleAuthCode.toOidcBase.keystone_request "AT123"] ∧
     (sampleAuthCode.toOidcBase.keystone_request "AT123").headers =
       some [("Authorization", "Bearer " ++ "AT123")]) :=
  ⟨by decide, by decide, by decide, by decide,
    C1_two_requests samplePassword sampleAuthCode sessionOk sessionOk "AT123" "AT123"
      (by decide) (by decide) (by decide) (by decide)⟩

/-- C2: for every configuration and every session whose phase-1 response has
a non-2xx status, authenticate fails with a `TokenEndpointError` carrying
that status (and body), and the phase-2 request is never issued: the request
list is exactly the phase-1 request. -/
theorem C2_phase1_failure_aborts (p : OidcPassword) (a : OidcAuthorizationCode)
    (s t : Session)
    (hp : ¬ is2xx (p.phase1_response s))
    (ha : ¬ is2xx (a.phase1_response t)) :
    (p.get_unscoped_auth_ref s).1 =
      (Except.error (OidcError.tokenEndpointError (p.phase1_response s).status
        (p.phase1_response s).body),
       [p.toOidcBase.token_request p.phase1_payload]) ∧
    (a.get_unscoped_auth_ref t).1 =
      (Except.error (OidcError.tokenEndpointError (a.phase1_response t).status
        (a.phase1_response t).body),
       [a.toOidcBase.token_request a.phase1_payload]) := by
  constructor
  · rw [password_factors]
    exact specExchange_phase1_error _ _ _ hp
  · rw [authcode_factors]
    exact specExchange_phase1_error _ _ _ ha

/-- C2 witness: the statement instantiated at the sample configurations and
the all-401 session. -/
theorem C2_witness :
    ¬ is2xx (samplePassword.phase1_response session401) ∧
    ¬ is2xx (sampleAuthCode.phase1_response session401) ∧
    ((samplePassword.get_unscoped_auth_ref session401).1 =
      (Except.error (OidcError.tokenEndpointError 401 [("error", "unauthorized")]),
       [samplePassword.toOidcBase.token_request samplePassword.phase1_payload]) ∧
     (sampleAuthCode.get_unscoped_auth_ref session401).1 =
      (Except.error (OidcError.tokenEndpointError 401 [("error", "unauthorized")]),
       [sampleAuthCode.toOidcBase.token_request sampleAuthCode.phase1_payload])) :=
  ⟨by decide, by decide,
    C2_phase1_failure_aborts samplePassword sampleAuthCode session401 session401
      (by decide) (by decide)⟩

/-- C3: for every configuration and every session whose phase-1 response is
2xx but whose JSON body lacks the key named by `access_token_type`,
authenticate fails with a `MalformedResponseError` and the request list is
exactly the phase-1 request: no phase-2 request is sent. -/
theorem C3_missing_key_aborts (p : OidcPassword) (a : OidcAuthorizationCode)
    (s t : Session)
    (hp2 : is2xx (p.phase1_response s))
    (hpk : (p.phase1_response s).body.lookup p.access_token_type = none)
    (ha2 : is2xx (a.phase1_response t))
    (hak : (a.phase1_response t).body.lookup a.access_token_type = none) :
    (p.get_unscoped_auth_ref s).1 =
      (Except.error (OidcError.malformedResponseError p.access_token_type),
       [p.toOidcBase.token_request p.phase1_payload]) ∧
    (a.get_unscoped_auth_ref t).1 =
      (Except.error (OidcError.malformedResponseError a.access_token_type),
       [a.toOidcBase.token_request a.phase1_payload]) := by
  constructor
  · rw [password_factors]
    exact specExchange_missing_key _ _ _ hp2 hpk
  · rw [authcode_factors]
    exact specExchange_missing_key _ _ _ ha2 hak

/-- C3 witness: the statement instantiated at the sample configurations and
the session whose 200 phase-1 body lacks the `access_token` key. -/
theorem C3_witness :
    is2xx (samplePassword.phase1_response sessionNoKey) ∧
    (samplePassword.phase1_response sessionNoKey).body.lookup
      samplePassword.access_token_type = none ∧
    is2xx (sampleAuthCode.phase1_response sessionNoKey) ∧
    (sampleAuthCode.phase1_response sessionNoKey).body.lookup
      sampleAuthCode.access_token_type = none ∧
    ((samplePassword.get_unscoped_auth_ref sessionNoKey).1 =
      (Except.error (OidcError.malformedResponseError "access_token"),
       [samplePassword.toOidcBase.token_request samplePassword.phase1_payload]) ∧
     (sampleAuthCode.get_unscoped_auth_ref sessionNoKey).1 =
      (Except.error (OidcError.malformedResponseError "access_token"),
       [sampleAuthCode.toOidcBase.token_request sampleAuthCode.phase1_payload])) :=
  ⟨by decide, by decide, by decide, by decide,
    C3_missing_key_aborts samplePassword sampleAuthCode sessionNoKey sessionNoKey
      (by decide) (by decide) (by decide) (by decide)⟩

/-- C4: the phase-1 payload the password flow sends (the form data of the
first request of every invocation) has exactly the keys
`grant_type, username, password, scope`; the authorization-code flow's has
exactly `grant_type, redirect_uri, code`; and no variant-specific key of one
flow appears among the other flow's payload keys. -/
theorem C4_payload_keys (p : OidcPassword) (a : OidcAuthorizationCode) (s t : Session) :
    ((p.get_unscoped_auth_ref s).1.2).head? =
      some (p.toOidcBase.token_request p.phase1_payload) ∧
    p.phase1_payload.map Prod.fst = ["grant_type", "username", "password", "scope"] ∧
    ((a.get_unscoped_auth_ref t).1.2).head? =
      some (a.toOidcBase.token_request a.phase1_payload) ∧
    a.phase1_payload.map Prod.fst = ["grant_type", "redirect_uri", "code"] ∧
    ("username" ∉ a.phase1_payload.map Prod.fst ∧
     "password" ∉ a.phase1_payload.map Prod.fst ∧
     "scope" ∉ a.phase1_payload.map Prod.fst) ∧
    ("redirect_uri" ∉ p.phase1_payload.map Prod.fst ∧
     "code" ∉ p.phase1_payload.map Prod.fst) := by
  refine ⟨?_, rfl, ?_, rfl, ?_, ?_⟩
  · rw [password_factors]
    exact specExchange_first_request _ _ _
  · rw [authcode_factors]
    exact specExchange_first_request _ _ _
  · simp only [OidcAuthorizationCode.phase1_payload, List.map]
    decide
  · simp only [OidcPassword.phase1_payload, List.map]
    decide

/-- C5: as stated — "the password flow's phase-1 payload maps `grant_type` to
the literal string `'password'`" — the claim is false: `grant_type` is an
ordinary constructor parameter (its default is merely `'password'`), and an
instance constructed with `grant_type='refresh_token'` sends a payload
mapping `grant_type` to `'refresh_token'`. -/
theorem C5_counterexample :
    ((refreshPassword.get_unscoped_auth_ref sessionOk).1.2).head?.map Request.data =
      some (some refreshPassword.phase1_payload) ∧
    refreshPassword.phase1_payload.lookup "grant_type" = some "refresh_token" ∧
    ¬(refreshPassword.phase1_payload.lookup "grant_type" = some "password") := by
  decide

/-- C5 (amended): the phase-1 payload (the form data of the first request of
every invocation) maps `grant_type` to the instance's configured `grant_type`
field; the constructor default of that field is `"password"` for the password
flow and `"authorization_code"` for the authorization-code flow, so instances
built with the defaults map it to those literals. -/
theorem C5_grant_type_from_config (p : OidcPassword) (a : OidcAuthorizationCode)
    (s t : Session) :
    ((p.get_unscoped_auth_ref s).1.2).head?.map Request.data =
      some (some p.phase1_payload) ∧
    p.phase1_payload.lookup "grant_type" = some p.grant_type ∧
    OidcPassword.default_grant_type = "password" ∧
    ((a.get_unscoped_auth_ref t).1.2).head?.map Request.data =
      some (some a.phase1_payload) ∧
    a.phase1_payload.lookup "grant_type" = some a.grant_type ∧
    OidcAuthorizationCode.default_grant_type = "authorization_code" := by
  refine ⟨?_, by simp [OidcPassword.phase1_payload, List.lookup], rfl,
          ?_, by simp [OidcAuthorizationCode.phase1_payload, List.lookup], rfl⟩
  · rw [password_factors]
    rw [specExchange_first_request]
    rfl
  · rw [authcode_factors]
    rw [specExchange_first_request]
    rfl

/-- C6: the key used to extract the access token from the phase-1 JSON body
is exactly the configured `access_token_type`, independently of the flow
variant: two flows with equal `access_token_type` whose phase-1 responses are
2xx with equal bodies extract under the same key and send request sequences
with identical header columns (in particular identical phase-2 Authorization
headers, or identically no phase-2 request). -/
theorem C6_extraction_key_uniform (p : OidcPassword) (a : OidcAuthorizationCode)
    (s t : Session)
    (hkey : p.access_token_type = a.access_token_type)
    (hp2 : is2xx (p.phase1_response s))
    (ha2 : is2xx (a.phase1_response t))
    (hbody : (p.phase1_response s).body = (a.phase1_response t).body) :
    dictGetItem (p.phase1_response s).json p.access_token_type =
      dictGetItem (a.phase1_response t).json a.access_token_type ∧
    ((p.get_unscoped_auth_ref s).1.2).map Request.headers =
      ((a.get_unscoped_auth_ref t).1.2).map Request.headers := by
  constructor
  · simp only [Response.json, hbody, hkey]
  · rw [password_factors, authcode_factors]
    cases hv : (p.phase1_response s).body.lookup p.access_token_type with
    | none =>
      have hv' : (a.phase1_response t).body.lookup a.access_token_type = none := by
        rw [← hbody, ← hkey]
        exact hv
      rw [specExchange_missing_key _ _ _ hp2 hv, specExchange_missing_key _ _ _ ha2 hv']
      rfl
    | some v =>
      have hv' : (a.phase1_response t).body.lookup a.access_token_type = some v := by
        rw [← hbody, ← hkey]
        exact hv
      have e1 := specExchange_with_token p.toOidcBase p.phase1_payload s v hp2 hv
      have e2 := specExchange_with_token a.toOidcBase a.phase1_payload t v ha2 hv'
      rw [e1, e2]
      rfl

/-- C6 witness: the statement instantiated at the sample configurations (both
with `access_token_type = "access_token"`) and the all-200 session. -/
theorem C6_witness :
    samplePassword.access_token_type = sampleAuthCode.access_token_type ∧
    is2xx (samplePassword.phase1_response sessionOk) ∧
    is2xx (sampleAuthCode.phase1_response sessionOk) ∧
    (samplePassword.phase1_response sessionOk).body =
      (sampleAuthCode.phase1_response sessionOk).body ∧
    (dictGetItem (samplePassword.phase1_response sessionOk).json
        samplePassword.access_token_type =
      dictGetItem (sampleAuthCode.phase1_response sessionOk).json
        sampleAuthCode.access_token_type ∧
     ((samplePassword.get_unscoped_auth_ref sessionOk).1.2).map Request.headers =
      ((sampleAuthCode.get_unscoped_auth_ref sessionOk).1.2).map Request.headers) :=
  ⟨by decide, by decide, by decide, by decide,
    C6_extraction_key_uniform samplePassword sampleAuthCode sessionOk sessionOk
      (by decide) (by decide) (by decide) (by decide)⟩

/-- C7: the phase-1 request of every invocation, in either variant, is a POST
to `access_token_endpoint`, unauthenticated with respect to the identity
service, carrying `(client_id, client_secret)` as request credentials and the
grant-specific payload as its form body. -/
theorem C7_phase1_request_shape (p : OidcPassword) (a : OidcAuthorizationCode)
    (s t : Session) :
    ((p.get_unscoped_auth_ref s).1.2).head? = some
      { method := "POST", url := p.access_token_endpoint,
        requests_auth := some (p.client_id, p.client_secret),
        data := some p.phase1_payload, headers := none, authenticated := false } ∧
    ((a.get_unscoped_auth_ref t).1.2).head? = some
      { method := "POST", url := a.access_token_endpoint,
        requests_auth := some (a.client_id, a.client_secret),
        data := some a.phase1_payload, headers := none, authenticated := false } := by
  constructor
  · rw [password_factors]
    exact specExchange_first_request _ _ _
  · rw [authcode_factors]
    exact specExchange_first_request _ _ _

/-- C8: authenticate leaves every configuration field of the flow instance
unchanged, whether it succeeds or fails: the instance state threaded through
the call equals the state before the call (the source method bodies contain
no attribute assignment). -/
theorem C8_config_unchanged (p : OidcPassword) (a : OidcAuthorizationCode)
    (s t : Session) :
    (p.get_unscoped_auth_ref s).2 = p ∧ (a.get_unscoped_auth_ref t).2 = a := by
  rw [password_factors, authcode_factors]
  exact ⟨rfl, rfl⟩

/-- C9: the phase-2 Authorization header is built by verbatim concatenation
with no validation: when the phase-1 2xx body maps the `access_token_type`
key to the empty string, both variants still issue the phase-2 request, whose
Authorization header value is exactly `"Bearer "`. -/
theorem C9_empty_token_bearer (p : OidcPassword) (a : OidcAuthorizationCode)
    (s t : Session)
    (hp2 : is2xx (p.phase1_response s))
    (hpk : (p.phase1_response s).body.lookup p.access_token_type = some "")
    (ha2 : is2xx (a.phase1_response t))
    (hak : (a.phase1_response t).body.lookup a.access_token_type = some "") :
    (p.get_unscoped_auth_ref s).1.2 =
      [p.toOidcBase.token_request p.phase1_payload, p.toOidcBase.keystone_request ""] ∧
    (p.toOidcBase.keystone_request "").headers = some [("Authorization", "Bearer ")] ∧
    (a.get_unscoped_auth_ref t).1.2 =
      [a.toOidcBase.token_request a.phase1_payload, a.toOidcBase.keystone_request ""] ∧
    (a.toOidcBase.keystone_request "").headers = some [("Authorization", "Bearer ")] := by
  refine ⟨?_, rfl, ?_, rfl⟩
  · rw [password_factors]
    exact specExchange_with_token _ _ _ _ hp2 hpk
  · rw [authcode_factors]
    exact specExchange_with_token _ _ _ _ ha2 hak

/-- C9 witness: the statement instantiated at the sample configurations and
the session whose phase-1 body maps `access_token` to the empty string. -/
theorem C9_witness :
    is2xx (samplePassword.phase1_response sessionEmptyTok) ∧
    (samplePassword.phase1_response sessionEmptyTok).body.lookup
      samplePassword.access_token_type = some "" ∧
    is2xx (sampleAuthCode.phase1_response sessionEmptyTok) ∧
    (sampleAuthCode.phase1_response sessionEmptyTok).body.lookup
      sampleAuthCode.access_token_type = some "" ∧
    ((samplePassword.get_unscoped_auth_ref sessionEmptyTok).1.2 =
      [samplePassword.toOidcBase.token_request samplePassword.phase1_payload,
       samplePassword.toOidcBase.keystone_request ""] ∧
     (samplePassword.toOidcBase.keystone_request "").headers =
       some [("Authorization", "Bearer ")] ∧
     (sampleAuthCode.get_unscoped_auth_ref sessionEmptyTok).1.2 =
      [sampleAuthCode.toOidcBase.token_request sampleAuthCode.phase1_payload,
       sampleAuthCode.toOidcBase.keystone_request ""] ∧
     (sampleAuthCode.toOidcBase.keystone_request "").headers =
       some [("Authorization", "Bearer ")]) :=
  ⟨by decide, by decide, by decide, by decide,
    C9_empty_token_bearer samplePassword sampleAuthCode sessionEmptyTok sessionEmptyTok
      (by decide) (by decide) (by decide) (by decide)⟩

/-- C10: the two flow variants are the same exchange parameterized only by
the phase-1 payload: each variant's authenticate equals the generic two-step
exchange `specExchange` applied to its shared base configuration, its
payload, and the session — so two instances with equal shared configuration
and equal payloads driven by the same session issue identical request
sequences and return identical results, including identical failures. -/
theorem C10_common_exchange (p : OidcPassword) (a : OidcAuthorizationCode)
    (s t : Session) :
    (p.get_unscoped_auth_ref s).1 = specExchange p.toOidcBase p.phase1_payload s ∧
    (a.get_unscoped_auth_ref t).1 = specExchange a.toOidcBase a.phase1_payload t := by
  rw [password_factors, authcode_factors]
  exact ⟨rfl, rfl⟩
